import Mathlib

/-!
Shallow embedding of the sustainability chatbot
(`main.py`, with `streamlit_app.py` and `import requests.py` agreeing on
every modelled behaviour).

Python exceptions are modelled explicitly: fallible functions return
`Except`; an exception that a function raises after classifying it
(`raise Exception("API request failed: ...")`) is the classified
`Except.error` result of that function, while an exception that escapes a
function without being caught by any of its own handlers is modelled by a
dedicated `uncaught` error constructor.  Side-effecting reports
(`print` / `st.error`) are modelled as explicit event or message values.
-/

namespace Chatbot

/-- Python `s.strip()`: remove whitespace from both ends. -/
def pyStrip (s : String) : String :=
  String.mk
    (((s.data.dropWhile Char.isWhitespace).reverse.dropWhile
      Char.isWhitespace).reverse)

/-- Python `s.lower()` (ASCII case folding). -/
def pyLower (s : String) : String := String.mk (s.data.map Char.toLower)

/-- Python `s.startswith(pre)`. -/
def pyStartsWith (s pre : String) : Bool := pre.data.isPrefixOf s.data

/-- Python `s[n:]`: drop the first `n` characters. -/
def pyDrop (s : String) (n : Nat) : String := String.mk (s.data.drop n)

/-- Message role, the `"role"` field of a chat message dict. -/
inductive Role
  | system
  | user
  | assistant
deriving DecidableEq

/-- One chat message `{"role": ..., "content": ...}`. -/
structure Turn where
  role : Role
  content : String
deriving DecidableEq

/-- `SYSTEM_PROMPT` from `main.py`. -/
def SYSTEM_PROMPT : String :=
  "You are a sustainability and packaging expert specializing in Life Cycle Assessment (LCA), ESG (Environmental, Social, Governance) reporting, and materiality analysis for packaging. Answer user questions as an industry authority, using up-to-date standards, real-world examples, and clear explanations tailored to packaging solutions."

/-- The fixed persona turn, first element of `conversation` in `main()`. -/
def personaTurn : Turn := ⟨Role.system, SYSTEM_PROMPT⟩

/-- The `"message"` object of one choice of the response body: `content`
is `none` when the `"content"` key is absent (a `KeyError` in Python). -/
structure MsgObj where
  content : Option String
deriving DecidableEq

/-- One element of the `"choices"` array: `message` is `none` when the
`"message"` key is absent. -/
structure ChoiceObj where
  message : Option MsgObj
deriving DecidableEq

/-- A parsed JSON success body: `choices` is `none` when the `"choices"`
key is absent. -/
structure RespBody where
  choices : Option (List ChoiceObj)
deriving DecidableEq

/-- Outcome of the one blocking `requests.post` call in `ask_groq`:
a transport-level failure (`RequestException` with no response attached:
connection refused, timeout, DNS failure), a non-success HTTP status
(`raise_for_status` raises `HTTPError`, also a `RequestException`), or a
success-status response with a parsed JSON body. -/
inductive HttpOutcome
  | transportFail (cause : String)
  | statusFail (cause : String)
  | success (body : RespBody)

/-- A Python runtime error raised while indexing into the response body. -/
inductive PyError
  | keyError (key : String)
  | indexError (msg : String)
deriving DecidableEq

/-- What escapes `ask_groq`: a failure classified by its
`except requests.exceptions.RequestException` branch, a failure classified
by its `except KeyError` branch, or an exception none of its handlers
catch (an `IndexError` is neither a `RequestException` nor a `KeyError`). -/
inductive AskError
  | apiRequestFailed (cause : String)
  | unexpectedFormat (cause : String)
  | uncaught (e : PyError)
deriving DecidableEq

/-- The message of the exception `ask_groq` raises for each error. -/
def askErrorMessage : AskError → String
  | AskError.apiRequestFailed c => "API request failed: " ++ c
  | AskError.unexpectedFormat c => "Unexpected API response format: " ++ c
  | AskError.uncaught (PyError.keyError k) => k
  | AskError.uncaught (PyError.indexError m) => m

/-- Whether the error left `ask_groq` without being classified by one of
its own `except` branches. -/
def AskError.unclassified : AskError → Bool
  | AskError.uncaught _ => true
  | _ => false

/-- The access path `response.json()["choices"][0]["message"]["content"]`:
a missing key raises `KeyError`, an empty `choices` array raises
`IndexError` (`list index out of range`). -/
def extractReply (body : RespBody) : Except PyError String :=
  match body.choices with
  | none => Except.error (PyError.keyError "choices")
  | some cs =>
    match cs with
    | [] => Except.error (PyError.indexError "list index out of range")
    | c :: _ =>
      match c.message with
      | none => Except.error (PyError.keyError "message")
      | some m =>
        match m.content with
        | none => Except.error (PyError.keyError "content")
        | some s => Except.ok s

/-- `ask_groq(messages)` from `main.py`, given the outcome of its single
HTTP call.  A `RequestException` (transport or status failure) is caught
and re-raised as `Exception("API request failed: ...")`; a `KeyError` from
the reply access path is caught and re-raised as
`Exception("Unexpected API response format: ...")`; an `IndexError` from
the reply access path matches neither `except` branch and escapes
unclassified. -/
def ask_groq (messages : List Turn) (outcome : HttpOutcome) :
    Except AskError String :=
  match outcome with
  | HttpOutcome.transportFail c => Except.error (AskError.apiRequestFailed c)
  | HttpOutcome.statusFail c => Except.error (AskError.apiRequestFailed c)
  | HttpOutcome.success body =>
    match extractReply body with
    | Except.ok s => Except.ok s
    | Except.error (PyError.keyError k) =>
        Except.error (AskError.unexpectedFormat k)
    | Except.error (PyError.indexError m) =>
        Except.error (AskError.uncaught (PyError.indexError m))

/-- Outcome of `page.extract_text()` for one page: a string, `None`
(which `page.extract_text() or ""` turns into `""`), or a raised
exception. -/
inductive PageOutcome
  | extracted (s : String)
  | noText
  | raises (e : String)
deriving DecidableEq

/-- A PDF source: either opening/parsing the whole file raises, or it
yields a list of pages with their per-page extraction outcomes. -/
inductive PdfSource
  | openFail (e : String)
  | pages (ps : List PageOutcome)

/-- The page loop of `extract_text_from_pdf`, inside its single `try`:
`text += page.extract_text() or ""` page by page; a page that raises
aborts the loop (the `except` prints and the text accumulated so far is
returned). -/
def extractPages : String → List PageOutcome → String × Option String
  | acc, [] => (acc, none)
  | acc, PageOutcome.extracted s :: rest => extractPages (acc ++ s) rest
  | acc, PageOutcome.noText :: rest => extractPages (acc ++ "") rest
  | acc, PageOutcome.raises e :: _ => (acc, some ("Could not read PDF: " ++ e))

/-- `extract_text_from_pdf(pdf_path)` from `main.py`: returns the
extracted text together with the error report printed by its `except`
branch, if any.  No exception escapes: the whole body is wrapped in
`try ... except Exception`. -/
def extract_text_from_pdf : PdfSource → String × Option String
  | PdfSource.openFail e => ("", some ("Could not read PDF: " ++ e))
  | PdfSource.pages ps => extractPages "" ps

/-- The text a page contributes when the loop reaches it and it does not
raise. -/
def pageText : PageOutcome → String
  | PageOutcome.extracted s => s
  | PageOutcome.noText => ""
  | PageOutcome.raises _ => ""

/-- Whether a page's extraction raises. -/
def PageOutcome.isRaise : PageOutcome → Bool
  | PageOutcome.raises _ => true
  | _ => false

/-- Concatenation of the contributions of a list of pages. -/
def pagesText : List PageOutcome → String
  | [] => ""
  | p :: rest => pageText p ++ pagesText rest

/-- Python slicing `s[:n]`: the first `n` characters of `s` (all of `s`
when it is shorter). -/
def pySlice (s : String) (n : Nat) : String := String.mk (s.data.take n)

/-- The fixed instruction text preceding the document text in the prompt
built by `summarize_and_benchmark_esg` in `main.py`. -/
def esgPromptPre : String :=
  "Below is the extracted text from a company\x27s ESG report. Please provide:\n1. A concise summary of the company\x27s ESG performance.\n2. A benchmarking analysis compared to industry standards or leaders (if possible).\nHere is the ESG report:\n-----\n"

/-- The fixed text following the document text in the same prompt. -/
def esgPromptPost : String := "\n-----\n"

/-- The `prompt` string built by `summarize_and_benchmark_esg`: the fixed
instruction, then `text[:3500]`, then the closing delimiter. -/
def esg_prompt (text : String) : String :=
  esgPromptPre ++ pySlice text 3500 ++ esgPromptPost

/-- The one-off `messages` list `summarize_and_benchmark_esg` submits. -/
def esgMessages (text : String) : List Turn :=
  [personaTurn, ⟨Role.user, esg_prompt text⟩]

/-- `summarize_and_benchmark_esg(text)` from `main.py`. -/
def summarize_and_benchmark_esg (text : String) (outcome : HttpOutcome) :
    Except AskError String :=
  ask_groq (esgMessages text) outcome

/-- Error kind for a rejected user input. -/
inductive ChatError
  | invalidInput
deriving DecidableEq

/-- `conversation = [{"role": "system", "content": SYSTEM_PROMPT}]`:
the transcript at session start. -/
def initialConversation (persona : String) : List Turn :=
  [⟨Role.system, persona⟩]

/-- Appending a user turn: the loop rejects input that is empty after
`.strip()` (`if not user_input`) and otherwise appends
`{"role": "user", "content": user_input}`. -/
def appendUser (conv : List Turn) (text : String) :
    Except ChatError (List Turn) :=
  if pyStrip text = "" then Except.error ChatError.invalidInput
  else Except.ok (conv ++ [⟨Role.user, text⟩])

/-- `conversation.append({"role": "assistant", "content": answer})`. -/
def appendAssistant (conv : List Turn) (text : String) : List Turn :=
  conv ++ [⟨Role.assistant, text⟩]

/-- The transcript submitted to `ask_groq`: `conversation` itself, in
full and in order. -/
def snapshot (conv : List Turn) : List Turn := conv

/-- One append operation of a session. -/
inductive Op
  | user (t : String)
  | assistant (t : String)

/-- Whether the operation succeeds: a user append succeeds exactly when
the text is non-empty after trimming; an assistant append always does. -/
def Op.okB : Op → Bool
  | Op.user t => !(pyStrip t == "")
  | Op.assistant _ => true

/-- The turn an operation appends when it succeeds. -/
def Op.turn : Op → Turn
  | Op.user t => ⟨Role.user, t⟩
  | Op.assistant t => ⟨Role.assistant, t⟩

/-- Apply one operation to the transcript; a failed user append leaves it
unchanged. -/
def applyOp (conv : List Turn) : Op → List Turn
  | Op.user t =>
    match appendUser conv t with
    | Except.ok c => c
    | Except.error _ => conv
  | Op.assistant t => appendAssistant conv t

/-- Apply a sequence of operations in call order. -/
def applyOps (conv : List Turn) (ops : List Op) : List Turn :=
  ops.foldl applyOp conv

/-- Observable events of one CLI session: a completion call with the
transcript it submits, a reply printed as the bot's answer, a message
reported to the user (`print` of an error or notice), and session end. -/
inductive Event
  | completionCall (transcript : List Turn)
  | reply (s : String)
  | report (msg : String)
  | quitEvt
deriving DecidableEq

/-- Whether an event is a completion call. -/
def Event.isCall : Event → Bool
  | Event.completionCall _ => true
  | _ => false

/-- Number of completion calls among the events. -/
def countCalls (evs : List Event) : Nat :=
  (evs.filter Event.isCall).length

/-- The transcripts submitted by the completion calls, in order. -/
def callTranscripts (evs : List Event) : List (List Turn) :=
  evs.filterMap fun e =>
    match e with
    | Event.completionCall ts => some ts
    | _ => none

/-- One chat turn of `main()` (the non-command branch): the user turn is
appended, `ask_groq(conversation)` is called on the resulting transcript,
and on success the answer is printed and appended; on failure the outer
`except` prints the error and the loop continues — the already-appended
user turn stays in `conversation`. -/
def chatTurn (conv : List Turn) (t : String) (outcome : HttpOutcome) :
    List Turn × List Event :=
  let conv1 := conv ++ [⟨Role.user, t⟩]
  match ask_groq conv1 outcome with
  | Except.ok answer =>
    (appendAssistant conv1 answer,
      [Event.completionCall conv1, Event.reply answer])
  | Except.error e =>
    (conv1, [Event.completionCall conv1, Event.report (askErrorMessage e)])

/-- Message printed when an `esg` command names a missing file. -/
def fileNotFoundMsg : String :=
  "File not found. Please check the file path and try again."

/-- Message printed when extraction yields no usable text. -/
def noTextMsg : String := "No text could be extracted from the report."

/-- The `esg <file_path>` branch of `main()`: look the path up, extract
text, stop with a report when the stripped text is empty, otherwise make
the one-off analysis call.  `conversation` is never touched. -/
def esgTurn (files : List (String × PdfSource)) (conv : List Turn)
    (t : String) (outcome : HttpOutcome) : List Turn × List Event :=
  let path := pyDrop t 4
  match files.lookup path with
  | none => (conv, [Event.report fileNotFoundMsg])
  | some src =>
    let ext := extract_text_from_pdf src
    let evs0 :=
      match ext.2 with
      | some m => [Event.report m]
      | none => []
    if pyStrip ext.1 = "" then
      (conv, evs0 ++ [Event.report noTextMsg])
    else
      match summarize_and_benchmark_esg ext.1 outcome with
      | Except.ok summary =>
        (conv, evs0 ++ [Event.completionCall (esgMessages ext.1),
          Event.reply summary])
      | Except.error e =>
        (conv, evs0 ++ [Event.completionCall (esgMessages ext.1),
          Event.report (askErrorMessage e)])

/-- The control tokens ending the session. -/
def exitTokens : List String := ["exit", "quit", "q"]

/-- Reprompt printed on blank input. -/
def repromptMsg : String :=
  "Please enter a question or type \x27exit\x27 to quit."

/-- The `while True` loop of `main()`, over a list of raw input lines.
`net` supplies the outcome of the `k`-th HTTP call of the session.
Returns the events of the session and the final `conversation`. -/
def runLoop (files : List (String × PdfSource)) (net : Nat → HttpOutcome) :
    Nat → List Turn → List String → List Event × List Turn
  | _, conv, [] => ([], conv)
  | k, conv, s :: rest =>
    let t := pyStrip s
    if exitTokens.contains (pyLower t) then ([Event.quitEvt], conv)
    else if pyStartsWith (pyLower t) "esg " then
      let res := esgTurn files conv t (net k)
      let tail := runLoop files net (k + countCalls res.2) res.1 rest
      (res.2 ++ tail.1, tail.2)
    else if t = "" then
      let tail := runLoop files net k conv rest
      (Event.report repromptMsg :: tail.1, tail.2)
    else
      let res := chatTurn conv t (net k)
      let tail := runLoop files net (k + countCalls res.2) res.1 rest
      (res.2 ++ tail.1, tail.2)

/-- `validate_api_key()` from `main.py`: `if not GROQ_API_KEY` — the key
is invalid when the environment variable is unset (`None`) or empty. -/
def validate_api_key (key : Option String) : Bool :=
  match key with
  | none => false
  | some s => !(s == "")

/-- First line printed when the key is missing. -/
def keyMissingMsg1 : String :=
  "Error: GROQ_API_KEY not found in environment variables."

/-- Second line printed when the key is missing. -/
def keyMissingMsg2 : String :=
  "Please create a .env file with your API key or set the environment variable."

/-- `main()` from `main.py`: validate the key first — on failure report
and return before `conversation` is created or any call is made — else
run the loop on the initial persona-only transcript. -/
def runMain (apiKey : Option String) (files : List (String × PdfSource))
    (net : Nat → HttpOutcome) (inputs : List String) :
    List Event × List Turn :=
  if validate_api_key apiKey then
    runLoop files net 0 (initialConversation SYSTEM_PROMPT) inputs
  else
    ([Event.report keyMissingMsg1, Event.report keyMissingMsg2], [])

/-- A well-formed success body carrying the reply `"ok"`. -/
def okBody : RespBody := ⟨some [⟨some ⟨some "ok"⟩⟩]⟩

/-- A network where the first call fails at the transport level and every
later call succeeds with reply `"ok"`. -/
def failThenOkNet : Nat → HttpOutcome := fun k =>
  if k == 0 then HttpOutcome.transportFail "connection refused"
  else HttpOutcome.success okBody

theorem str_append_empty (s : String) : s ++ "" = s := by
  apply String.ext
  simp

theorem str_empty_append (s : String) : "" ++ s = s := by
  apply String.ext
  simp

theorem str_append_assoc (a b c : String) : a ++ b ++ c = a ++ (b ++ c) := by
  apply String.ext
  simp

theorem extractPages_clean (ps : List PageOutcome) :
    ∀ acc : String, (∀ p ∈ ps, p.isRaise = false) →
    extractPages acc ps = (acc ++ pagesText ps, none) := by
  induction ps with
  | nil =>
    intro acc _
    simp [extractPages, pagesText, str_append_empty]
  | cons p rest ih =>
    intro acc h
    have hrest : ∀ q ∈ rest, q.isRaise = false := fun q hq =>
      h q (List.mem_cons_of_mem p hq)
    cases p with
    | extracted s =>
      rw [extractPages, ih (acc ++ s) hrest]
      simp [pagesText, pageText, str_append_assoc]
    | noText =>
      rw [extractPages, ih (acc ++ "") hrest]
      simp [pagesText, pageText, str_append_empty]
    | raises e =>
      have := h (PageOutcome.raises e) (List.mem_cons_self _ _)
      simp [PageOutcome.isRaise] at this

theorem extractPages_raise (pre : List PageOutcome) :
    ∀ (acc e : String) (post : List PageOutcome),
    (∀ p ∈ pre, p.isRaise = false) →
    extractPages acc (pre ++ PageOutcome.raises e :: post) =
      (acc ++ pagesText pre, some ("Could not read PDF: " ++ e)) := by
  induction pre with
  | nil =>
    intro acc e post _
    simp [extractPages, pagesText, str_append_empty]
  | cons p rest ih =>
    intro acc e post h
    have hrest : ∀ q ∈ rest, q.isRaise = false := fun q hq =>
      h q (List.mem_cons_of_mem p hq)
    cases p with
    | extracted s =>
      rw [List.cons_append, extractPages, ih (acc ++ s) e post hrest]
      simp [pagesText, pageText, str_append_assoc]
    | noText =>
      rw [List.cons_append, extractPages, ih (acc ++ "") e post hrest]
      simp [pagesText, pageText, str_append_empty]
    | raises e0 =>
      have := h (PageOutcome.raises e0) (List.mem_cons_self _ _)
      simp [PageOutcome.isRaise] at this

theorem applyOps_turns (ops : List Op) :
    ∀ conv : List Turn, (∀ op ∈ ops, op.okB = true) →
    applyOps conv ops = conv ++ ops.map Op.turn := by
  induction ops with
  | nil =>
    intro conv _
    simp [applyOps]
  | cons op rest ih =>
    intro conv h
    have hop := h op (List.mem_cons_self _ _)
    have hrest : ∀ q ∈ rest, q.okB = true := fun q hq =>
      h q (List.mem_cons_of_mem op hq)
    have hstep : applyOps conv (op :: rest) = applyOps (applyOp conv op) rest := rfl
    cases op with
    | user t =>
      have ht : ¬ pyStrip t = "" := by
        simp [Op.okB] at hop
        exact hop
      rw [hstep, ih _ hrest]
      simp [applyOp, appendUser, ht, Op.turn]
    | assistant t =>
      rw [hstep, ih _ hrest]
      simp [applyOp, appendAssistant, Op.turn]

/-- C1, counterexample.  In the session with API key present, a first
input `"hi"` whose completion call fails at the transport level, and a
second input `"again"` whose call succeeds, the transcript submitted on
the second call still contains the failed user turn `"hi"`: it is
`[persona, user "hi", user "again"]`, not the pre-turn transcript
`[persona]` (nor that transcript with only the new turn appended).  The
failed user turn is committed and never rolled back. -/
theorem failed_turn_retained_counterexample :
    callTranscripts (runMain (some "key") [] failThenOkNet ["hi", "again"]).1 =
      [[personaTurn, ⟨Role.user, "hi"⟩],
       [personaTurn, ⟨Role.user, "hi"⟩, ⟨Role.user, "again"⟩]] ∧
    ([personaTurn, ⟨Role.user, "hi"⟩, ⟨Role.user, "again"⟩] : List Turn) ≠
      [personaTurn, ⟨Role.user, "again"⟩] ∧
    ([personaTurn, ⟨Role.user, "hi"⟩, ⟨Role.user, "again"⟩] : List Turn) ≠
      [personaTurn] := by
  refine ⟨rfl, ?_, ?_⟩ <;> intro hcon <;> exact absurd (congrArg List.length hcon) (by decide)

/-- C1, amended: when the completion call for a chat turn fails (with any
classified or unclassified error), the assistant turn is not appended and
the prior transcript is left intact as a prefix, but the in-flight user
turn remains committed: the resulting `conversation` is exactly the prior
transcript with the failed user turn appended, and that is what the next
call will extend. -/
theorem failed_turn_not_rolled_back (conv : List Turn) (t : String)
    (outcome : HttpOutcome) (err : AskError)
    (h : ask_groq (conv ++ [⟨Role.user, t⟩]) outcome = Except.error err) :
    chatTurn conv t outcome =
      (conv ++ [⟨Role.user, t⟩],
       [Event.completionCall (conv ++ [⟨Role.user, t⟩]),
        Event.report (askErrorMessage err)]) := by
  simp [chatTurn, h]

/-- C1, witness for the amended theorem at a concrete failing call. -/
theorem failed_turn_not_rolled_back_witness :
    chatTurn [] "hi" (HttpOutcome.transportFail "x") =
      ([⟨Role.user, "hi"⟩],
       [Event.completionCall [⟨Role.user, "hi"⟩],
        Event.report "API request failed: x"]) :=
  failed_turn_not_rolled_back [] "hi" (HttpOutcome.transportFail "x")
    (AskError.apiRequestFailed "x") rfl

/-- C2: after `initialize(personaText)`, every sequence of successful
`appendUser` / `appendAssistant` calls leaves `snapshot()` equal to the
fixed persona system turn followed by exactly the appended turns in call
order — nothing removed, nothing reordered. -/
theorem snapshot_persona_then_turns (persona : String) (ops : List Op)
    (h : ∀ op ∈ ops, op.okB = true) :
    snapshot (applyOps (initialConversation persona) ops) =
      ⟨Role.system, persona⟩ :: ops.map Op.turn := by
  rw [snapshot, applyOps_turns ops _ h]
  simp [initialConversation]

/-- C2, witness: a concrete successful user/assistant sequence. -/
theorem snapshot_persona_then_turns_witness :
    snapshot (applyOps (initialConversation "P")
        [Op.user "hi", Op.assistant "ok"]) =
      ⟨Role.system, "P"⟩ ::
        [Op.user "hi", Op.assistant "ok"].map Op.turn :=
  snapshot_persona_then_turns "P" [Op.user "hi", Op.assistant "ok"]
    (by decide)

/-- C3: for every transcript, `ask_groq` under a transport-level failure
yields the failure classified by its `RequestException` branch
(`TransportError` in the spec's terms), whose message carries the
underlying cause; the raw exception does not escape unclassified past the
function's boundary. -/
theorem ask_groq_transport_classified (messages : List Turn)
    (cause : String) :
    ask_groq messages (HttpOutcome.transportFail cause) =
      Except.error (AskError.apiRequestFailed cause) ∧
    askErrorMessage (AskError.apiRequestFailed cause) =
      "API request failed: " ++ cause ∧
    AskError.unclassified (AskError.apiRequestFailed cause) = false :=
  ⟨rfl, rfl, rfl⟩

/-- C4, counterexample: a success body whose `choices` array is empty
does not produce the classified `ProtocolError` (`KeyError` branch);
indexing `[0]` raises an `IndexError`, which no `except` branch of
`ask_groq` catches, so it escapes the function's boundary
unclassified. -/
theorem empty_choices_counterexample :
    ask_groq [] (HttpOutcome.success ⟨some []⟩) =
      Except.error (AskError.uncaught
        (PyError.indexError "list index out of range")) ∧
    AskError.unclassified (AskError.uncaught
        (PyError.indexError "list index out of range")) = true :=
  ⟨rfl, rfl⟩

/-- C4, amended: a success body missing the `choices`, `message` or
`content` field yields the classified `ProtocolError`
(`Unexpected API response format`), but a body whose `choices` array is
empty raises an unclassified `IndexError` past `ask_groq`'s boundary. -/
theorem missing_reply_field_classified (messages : List Turn)
    (body : RespBody) (rest : List ChoiceObj) :
    (body.choices = none →
      ask_groq messages (HttpOutcome.success body) =
        Except.error (AskError.unexpectedFormat "choices")) ∧
    ask_groq messages (HttpOutcome.success ⟨some (⟨none⟩ :: rest)⟩) =
      Except.error (AskError.unexpectedFormat "message") ∧
    ask_groq messages
        (HttpOutcome.success ⟨some (⟨some ⟨none⟩⟩ :: rest)⟩) =
      Except.error (AskError.unexpectedFormat "content") ∧
    ask_groq messages (HttpOutcome.success ⟨some []⟩) =
      Except.error (AskError.uncaught
        (PyError.indexError "list index out of range")) := by
  refine ⟨?_, rfl, rfl, rfl⟩
  intro h
  cases body with
  | mk ch =>
    cases h
    rfl

/-- C4, witness for the amended theorem at a body with no `choices`. -/
theorem missing_reply_field_classified_witness :
    ask_groq [] (HttpOutcome.success ⟨none⟩) =
      Except.error (AskError.unexpectedFormat "choices") :=
  (missing_reply_field_classified [] ⟨none⟩ []).1 rfl

/-- C5, counterexample: on a 3-page PDF whose second page's extraction
raises, the result is page 1's text alone — the pages after the failing
one are skipped, so the failing page does not merely contribute an empty
string with extraction continuing (which would give `"A" ++ "" ++ "C"`). -/
theorem page_failure_aborts_counterexample :
    extract_text_from_pdf (PdfSource.pages
        [PageOutcome.extracted "A", PageOutcome.raises "bad page",
         PageOutcome.extracted "C"]) =
      ("A", some "Could not read PDF: bad page") ∧
    ("A" : String) ≠ "A" ++ "" ++ "C" := by
  refine ⟨rfl, ?_⟩
  decide

/-- C5, amended: a page whose extraction yields no text contributes the
empty string and extraction continues; but a page whose extraction raises
ends the page loop — the text of the preceding pages is returned with the
error reported and no exception escapes, and pages after the failing one
are not included.  In particular, on a 2-page PDF whose second page's
extraction fails, the result is exactly page 1's text. -/
theorem page_granular_degradation (ps pre post : List PageOutcome)
    (e p1 : String) :
    ((∀ p ∈ ps, p.isRaise = false) →
      extract_text_from_pdf (PdfSource.pages ps) = (pagesText ps, none)) ∧
    ((∀ p ∈ pre, p.isRaise = false) →
      extract_text_from_pdf
          (PdfSource.pages (pre ++ PageOutcome.raises e :: post)) =
        (pagesText pre, some ("Could not read PDF: " ++ e))) ∧
    extract_text_from_pdf (PdfSource.pages
        [PageOutcome.extracted p1, PageOutcome.raises e]) =
      (p1, some ("Could not read PDF: " ++ e)) := by
  refine ⟨fun h => ?_, fun h => ?_, ?_⟩
  · rw [extract_text_from_pdf, extractPages_clean ps "" h, str_empty_append]
  · rw [extract_text_from_pdf, extractPages_raise pre "" e post h,
      str_empty_append]
  · rw [extract_text_from_pdf, extractPages, extractPages,
      str_empty_append]

/-- C5, witness for the amended theorem on concrete page lists. -/
theorem page_granular_degradation_witness :
    extract_text_from_pdf
        (PdfSource.pages [PageOutcome.extracted "A", PageOutcome.noText]) =
      (pagesText [PageOutcome.extracted "A", PageOutcome.noText], none) ∧
    extract_text_from_pdf
        (PdfSource.pages (([] : List PageOutcome) ++
          PageOutcome.raises "x" :: [PageOutcome.extracted "B"])) =
      (pagesText [], some ("Could not read PDF: " ++ "x")) ∧
    extract_text_from_pdf (PdfSource.pages
        [PageOutcome.extracted "P1", PageOutcome.raises "x"]) =
      ("P1", some ("Could not read PDF: " ++ "x")) :=
  ⟨(page_granular_degradation [PageOutcome.extracted "A", PageOutcome.noText]
      [] [] "x" "P1").1 (by decide),
   (page_granular_degradation [] [] [PageOutcome.extracted "B"] "x" "P1").2.1
      (by decide),
   (page_granular_degradation [] [] [] "x" "P1").2.2⟩

/-- C6: the ESG analysis prompt builder is pure and deterministic —
identical input text yields an identical prompt — and the rendered prompt
embeds exactly the first 3500 characters of the document text between its
fixed instruction and closing delimiter; for text longer than 3500
characters the embedded slice has length exactly 3500 and is not the full
text (a silent prefix-cut). -/
theorem esg_prompt_truncation (t : String) :
    esg_prompt t = esg_prompt t ∧
    esg_prompt t = esgPromptPre ++ pySlice t 3500 ++ esgPromptPost ∧
    (3500 < t.length →
      (pySlice t 3500).length = 3500 ∧ pySlice t 3500 ≠ t) := by
  refine ⟨rfl, rfl, fun h => ⟨?_, ?_⟩⟩
  · cases t with
    | mk data =>
      simp only [String.length_mk] at h
      simp only [pySlice, String.length_mk, List.length_take]
      omega
  · intro he
    have hl := congrArg String.length he
    cases t with
    | mk data =>
      simp only [String.length_mk] at h
      simp only [pySlice, String.length_mk, List.length_take] at hl
      omega

/-- C6, witness at a 3501-character text. -/
theorem esg_prompt_truncation_witness :
    (pySlice (String.mk (List.replicate 3501 'a')) 3500).length = 3500 ∧
    pySlice (String.mk (List.replicate 3501 'a')) 3500 ≠
      String.mk (List.replicate 3501 'a') :=
  (esg_prompt_truncation (String.mk (List.replicate 3501 'a'))).2.2
    (by rw [String.length_mk, List.length_replicate]; omega)

/-- Closed evaluation facts used to discharge the loop branch conditions
once a blank input has been rewritten to the empty string. -/
theorem exit_no_blank : exitTokens.contains (pyLower "") = false := rfl

theorem exit_not_blank : pyLower "" ∉ exitTokens := by decide

theorem esg_no_blank : pyStartsWith (pyLower "") "esg " = false := rfl

/-- C7: `appendUser` on text that is empty after trimming fails with
`InvalidInputError` and the loop leaves the transcript unchanged (it only
reprompts); `appendUser` on text non-empty after trimming appends exactly
one user turn. -/
theorem appendUser_blank_rejected (conv : List Turn) (t : String)
    (files : List (String × PdfSource)) (net : Nat → HttpOutcome)
    (k : Nat) :
    (pyStrip t = "" →
      appendUser conv t = Except.error ChatError.invalidInput ∧
      runLoop files net k conv [t] = ([Event.report repromptMsg], conv)) ∧
    (pyStrip t ≠ "" →
      appendUser conv t = Except.ok (conv ++ [⟨Role.user, t⟩])) := by
  constructor
  · intro h
    constructor
    · simp [appendUser, h]
    · simp [runLoop, h, exit_no_blank, exit_not_blank, esg_no_blank]
  · intro h
    simp [appendUser, h]

/-- C7, witness at blank and non-blank concrete inputs. -/
theorem appendUser_blank_rejected_witness :
    (appendUser [] "   " = Except.error ChatError.invalidInput ∧
      runLoop [] (fun _ => HttpOutcome.transportFail "x") 0 [] ["   "] =
        ([Event.report repromptMsg], [])) ∧
    appendUser [] "hi" = Except.ok [⟨Role.user, "hi"⟩] :=
  ⟨(appendUser_blank_rejected [] "   " []
      (fun _ => HttpOutcome.transportFail "x") 0).1 rfl,
   (appendUser_blank_rejected [] "hi" []
      (fun _ => HttpOutcome.transportFail "x") 0).2 (by decide)⟩

/-- C8: when the PDF source cannot be opened or parsed at all,
`extract_text_from_pdf` returns empty text together with the surfaced
`Could not read PDF` report — as a total function it lets no exception
propagate past the extractor's boundary. -/
theorem open_failure_contained (e : String) :
    extract_text_from_pdf (PdfSource.openFail e) =
      ("", some ("Could not read PDF: " ++ e)) := rfl

/-- C9: when the credential is absent (unset or empty), `main` reports
the problem and stops before the session starts: the whole run consists
of the two startup error reports and performs zero completion calls. -/
theorem missing_key_halts (apiKey : Option String)
    (files : List (String × PdfSource)) (net : Nat → HttpOutcome)
    (inputs : List String) (h : validate_api_key apiKey = false) :
    runMain apiKey files net inputs =
      ([Event.report keyMissingMsg1, Event.report keyMissingMsg2], []) ∧
    countCalls (runMain apiKey files net inputs).1 = 0 := by
  have h1 : runMain apiKey files net inputs =
      ([Event.report keyMissingMsg1, Event.report keyMissingMsg2], []) := by
    simp [runMain, h]
  exact ⟨h1, by rw [h1]; rfl⟩

/-- C9, witness with the key unset. -/
theorem missing_key_halts_witness :
    runMain none [] (fun _ => HttpOutcome.transportFail "x") ["hi"] =
      ([Event.report keyMissingMsg1, Event.report keyMissingMsg2], []) ∧
    countCalls (runMain none []
        (fun _ => HttpOutcome.transportFail "x") ["hi"]).1 = 0 :=
  missing_key_halts none [] (fun _ => HttpOutcome.transportFail "x")
    ["hi"] rfl

/-- C10: in the document-analysis branch, when the extracted text is
empty or whitespace-only, the flow stops with the no-text report: the
conversation transcript is returned unchanged and no completion call is
made. -/
theorem empty_extraction_no_call (files : List (String × PdfSource))
    (conv : List Turn) (t : String) (outcome : HttpOutcome)
    (src : PdfSource)
    (hlook : files.lookup (pyDrop t 4) = some src)
    (hempty : pyStrip (extract_text_from_pdf src).1 = "") :
    (esgTurn files conv t outcome).1 = conv ∧
    countCalls (esgTurn files conv t outcome).2 = 0 ∧
    Event.report noTextMsg ∈ (esgTurn files conv t outcome).2 := by
  cases hsnd : (extract_text_from_pdf src).2 with
  | none =>
    have hres : esgTurn files conv t outcome =
        (conv, [Event.report noTextMsg]) := by
      simp [esgTurn, hlook, hsnd, hempty]
    rw [hres]
    exact ⟨rfl, rfl, List.mem_singleton.mpr rfl⟩
  | some m =>
    have hres : esgTurn files conv t outcome =
        (conv, [Event.report m, Event.report noTextMsg]) := by
      simp [esgTurn, hlook, hsnd, hempty]
    rw [hres]
    refine ⟨rfl, rfl, ?_⟩
    simp

/-- C10, witness: an `esg` command on a one-page PDF yielding no text. -/
theorem empty_extraction_no_call_witness :
    (esgTurn [("r.pdf", PdfSource.pages [PageOutcome.noText])] []
        "esg r.pdf" (HttpOutcome.transportFail "x")).1 = [] ∧
    countCalls (esgTurn [("r.pdf", PdfSource.pages [PageOutcome.noText])]
        [] "esg r.pdf" (HttpOutcome.transportFail "x")).2 = 0 ∧
    Event.report noTextMsg ∈
      (esgTurn [("r.pdf", PdfSource.pages [PageOutcome.noText])] []
        "esg r.pdf" (HttpOutcome.transportFail "x")).2 :=
  empty_extraction_no_call
    [("r.pdf", PdfSource.pages [PageOutcome.noText])] [] "esg r.pdf"
    (HttpOutcome.transportFail "x") (PdfSource.pages [PageOutcome.noText])
    rfl rfl

end Chatbot
